import Mathlib

/-!
Verification of the pypoolchem water-chemistry library.

The Lean definitions below are a shallow embedding of the Python source:
Python floats are modelled as real numbers, `math.floor` as `Int.floor`,
`math.sqrt` as `Real.sqrt`, `math.log10 x` as `Real.logb 10 x`, and
`10 ** e` as the real power `(10 : ℝ) ^ e`.  The Python built-in
`round(x, n)` (round-half-even on binary floats) is modelled as rounding
`x · 10^n` to the nearest integer; the two agree away from exact decimal
ties, and every concrete value used below is far from a tie.  Fallible
Python functions that raise are embedded as `Except String` values
carrying the exception message, and optional keyword parameters that the
code checks for `None` are embedded as `Option ℝ` arguments.
-/

/-- Rounding to `n` decimal places, the model of the Python built-in
`round(x, n)`. -/
noncomputable def round_to (n : ℕ) (x : ℝ) : ℝ :=
  ((round (x * 10 ^ n) : ℤ) : ℝ) / 10 ^ n

/-- The bracketing search of the interpolation loops in `constants.py`:
walk over adjacent breakpoint pairs `(t1, f1), (t2, f2)` and return the
linear interpolation for the first pair with `t1 ≤ x < t2`. -/
noncomputable def interpSearch (x : ℝ) : List (ℝ × ℝ) → Option ℝ
  | (t1, f1) :: (t2, f2) :: rest =>
      if t1 ≤ x ∧ x < t2 then some (f1 + (f2 - f1) * (x - t1) / (t2 - t1))
      else interpSearch x ((t2, f2) :: rest)
  | _ => none

/-- The last breakpoint pair of a table (the Python `temps[-1]` access),
with the head pair as the base case. -/
def lastPair (p : ℝ × ℝ) : List (ℝ × ℝ) → ℝ × ℝ
  | [] => p
  | q :: rest => lastPair q rest

/-- Piecewise-linear table interpolation with flat extrapolation, the shared
shape of `interpolate_temperature_factor` and `get_cya_correction_factor`:
clamp at the first and last breakpoints, otherwise interpolate between the
bracketing pair (falling back to the last value, like the Python loop
fall-through). The table is the sorted key order of the Python dict. -/
noncomputable def tableInterpolate (table : List (ℝ × ℝ)) (x : ℝ) : ℝ :=
  match table with
  | [] => 0
  | (t0, f0) :: rest =>
      if x ≤ t0 then f0
      else if (lastPair (t0, f0) rest).1 ≤ x then (lastPair (t0, f0) rest).2
      else (interpSearch x ((t0, f0) :: rest)).getD (lastPair (t0, f0) rest).2

/-- TEMPERATURE_FACTOR_TABLE from `constants.py`, in sorted key order. -/
noncomputable def TEMPERATURE_FACTOR_TABLE : List (ℝ × ℝ) :=
  [(32, 0.0), (37, 0.1), (46, 0.2), (53, 0.3), (60, 0.4),
   (66, 0.5), (76, 0.6), (84, 0.7), (94, 0.8), (105, 0.9)]

/-- CYA_CORRECTION_TABLE from `constants.py`, in sorted key order. -/
noncomputable def CYA_CORRECTION_TABLE : List (ℝ × ℝ) :=
  [(7.0, 0.22), (7.2, 0.27), (7.4, 0.31), (7.5, 0.33),
   (7.6, 0.33), (7.8, 0.35), (8.0, 0.38)]

/-- interpolate_temperature_factor from `constants.py`. -/
noncomputable def interpolate_temperature_factor (temp_f : ℝ) : ℝ :=
  tableInterpolate TEMPERATURE_FACTOR_TABLE temp_f

/-- get_cya_correction_factor from `constants.py`. -/
noncomputable def get_cya_correction_factor (ph : ℝ) : ℝ :=
  tableInterpolate CYA_CORRECTION_TABLE ph

/-- calculate_carbonate_alkalinity from `factors.py`:
CarbAlk = TA - (0.38772·CYA)/(1 + 10^(6.83 - pH)) - borate correction,
where the borate correction is computed only when borates > 0, and the
result is clamped to be nonnegative. -/
noncomputable def calculate_carbonate_alkalinity
    (total_alkalinity cyanuric_acid ph : ℝ) (borates : ℝ := 0) : ℝ :=
  let cya_correction := (0.38772 * cyanuric_acid) / (1 + (10 : ℝ) ^ (6.83 - ph))
  let borate_correction :=
    if borates > 0 then (4.63 * borates) / (1 + (10 : ℝ) ^ (9.11 - ph)) else 0
  max 0 (total_alkalinity - cya_correction - borate_correction)

/-- calculate_ionic_strength from `factors.py`:
extra_NaCl = max(0, Salt - 1.1678·CH); Ionic = (1.5·CH + TA)/50045 + extra_NaCl/58440. -/
noncomputable def calculate_ionic_strength
    (calcium_hardness total_alkalinity : ℝ) (salt : ℝ := 0) : ℝ :=
  let extra_nacl := max 0 (salt - 1.1678 * calcium_hardness)
  (1.5 * calcium_hardness + 1.0 * total_alkalinity) / 50045 + extra_nacl / 58440

/-- calculate_temperature_factor from `factors.py`. -/
noncomputable def calculate_temperature_factor (temperature_f : ℝ) : ℝ :=
  interpolate_temperature_factor temperature_f

/-- calculate_csi from `csi.py`.  The four required keyword parameters are
`Option ℝ` (the code raises CalculationError when one is `None`), and the
raising paths are the `Except.error` branches with the source messages.
The unguarded `math.sqrt(ionic)` in the source raises ValueError with
message "math domain error" whenever the ionic strength is negative; that
raise is embedded as the corresponding error branch. -/
noncomputable def calculate_csi
    (ph temperature_f calcium_hardness total_alkalinity : Option ℝ)
    (cyanuric_acid : ℝ := 0) (salt : ℝ := 0) (borates : ℝ := 0) :
    Except String ℝ :=
  match ph with
  | none => Except.error "pH is required for CSI calculation"
  | some ph =>
  match temperature_f with
  | none => Except.error "Temperature is required for CSI calculation"
  | some temperature_f =>
  match calcium_hardness with
  | none => Except.error "Calcium hardness is required for CSI calculation"
  | some calcium_hardness =>
  match total_alkalinity with
  | none => Except.error "Total alkalinity is required for CSI calculation"
  | some total_alkalinity =>
  if calcium_hardness ≤ 0 then
    Except.error "Calcium hardness must be greater than 0"
  else
    let carbonate_alk :=
      calculate_carbonate_alkalinity total_alkalinity cyanuric_acid ph borates
    if carbonate_alk ≤ 0 then
      Except.error "Carbonate alkalinity is too low (CYA/Borate correction exceeds TA)"
    else
      let ionic := calculate_ionic_strength calcium_hardness total_alkalinity salt
      if ionic < 0 then
        Except.error "math domain error"
      else
        let sqrt_ionic := Real.sqrt ionic
        let ionic_correction := (2.56 * sqrt_ionic) / (1 + 1.65 * sqrt_ionic)
        let temp_celsius := (temperature_f - 32) * 5 / 9
        let temp_correction := 1412.5 / (temp_celsius + 273.15)
        Except.ok (ph - 11.677 + Real.logb 10 calcium_hardness
          + Real.logb 10 carbonate_alk - ionic_correction - temp_correction + 4.7375)

/-- calculate_lsi from `lsi.py`.  The `tds` parameter is accepted and
ignored, exactly as in the source. -/
noncomputable def calculate_lsi
    (ph temperature_f calcium_hardness total_alkalinity : Option ℝ)
    (cyanuric_acid : ℝ := 0) (tds : ℝ := 1000) : Except String ℝ :=
  match ph with
  | none => Except.error "pH is required for LSI calculation"
  | some ph =>
  match temperature_f with
  | none => Except.error "Temperature is required for LSI calculation"
  | some temperature_f =>
  match calcium_hardness with
  | none => Except.error "Calcium hardness is required for LSI calculation"
  | some calcium_hardness =>
  match total_alkalinity with
  | none => Except.error "Total alkalinity is required for LSI calculation"
  | some total_alkalinity =>
  if calcium_hardness ≤ 0 then
    Except.error "Calcium hardness must be greater than 0"
  else
    let cya_correction_factor := get_cya_correction_factor ph
    let carbonate_alk := total_alkalinity - cyanuric_acid * cya_correction_factor
    if carbonate_alk ≤ 0 then
      Except.error "Carbonate alkalinity is too low (CYA correction exceeds TA)"
    else
      let tf := calculate_temperature_factor temperature_f
      let cf := Real.logb 10 calcium_hardness
      let af := Real.logb 10 carbonate_alk
      Except.ok (ph + tf + cf + af - 12.1)

/-- calculate_min_fc from `fc_cya.py`. -/
noncomputable def calculate_min_fc (cyanuric_acid : ℝ) (is_swg : Bool := false) : ℝ :=
  if cyanuric_acid ≤ 0 then 1
  else if is_swg then max 1 ((⌊cyanuric_acid * 0.045 + 0.7⌋ : ℤ) : ℝ)
  else max 1 ((⌊cyanuric_acid * 0.075 + 0.7⌋ : ℤ) : ℝ)

/-- calculate_target_fc from `fc_cya.py`. -/
noncomputable def calculate_target_fc (cyanuric_acid : ℝ) (is_swg : Bool := false) : ℝ × ℝ :=
  if cyanuric_acid ≤ 0 then (3, 3)
  else if is_swg then
    let target := max 3 ((⌊cyanuric_acid * 0.075⌋ : ℤ) : ℝ)
    (target, target)
  else
    (max 3 ((⌊cyanuric_acid / 10 + 1.5⌋ : ℤ) : ℝ),
     max 3 ((⌊cyanuric_acid / 10 + 3.5⌋ : ℤ) : ℝ))

/-- calculate_shock_fc from `fc_cya.py`. -/
noncomputable def calculate_shock_fc (cyanuric_acid : ℝ) : ℝ :=
  if cyanuric_acid ≤ 0 then 10
  else max 10 ((⌊cyanuric_acid * 0.393 + 0.5⌋ : ℤ) : ℝ)

/-- calculate_mustard_algae_shock_fc from `fc_cya.py`. -/
noncomputable def calculate_mustard_algae_shock_fc (cyanuric_acid : ℝ) : ℝ :=
  if cyanuric_acid ≤ 0 then 12
  else max 12 ((⌊cyanuric_acid / 2 + 4.5⌋ : ℤ) : ℝ)

/-- is_fc_adequate from `fc_cya.py`. -/
noncomputable def is_fc_adequate (free_chlorine cyanuric_acid : ℝ)
    (is_swg : Bool := false) : Prop :=
  free_chlorine ≥ calculate_min_fc cyanuric_acid is_swg

/-- ChemicalType from `chemicals.py`: the StrEnum of chemical identifiers. -/
inductive ChemicalType where
  | BLEACH_6
  | BLEACH_8_25
  | BLEACH_10
  | BLEACH_12_5
  | TRICHLOR
  | DICHLOR
  | CAL_HYPO_48
  | CAL_HYPO_53
  | CAL_HYPO_65
  | CAL_HYPO_73
  | LITHIUM_HYPO
  | CHLORINE_GAS
  | MURIATIC_ACID_14_5
  | MURIATIC_ACID_15_7
  | MURIATIC_ACID_20
  | MURIATIC_ACID_28_3
  | MURIATIC_ACID_31_45
  | MURIATIC_ACID_34_6
  | DRY_ACID
  | SODA_ASH
  | BORAX
  | BAKING_SODA
  | CALCIUM_CHLORIDE_ANHYDROUS
  | CALCIUM_CHLORIDE_DIHYDRATE
  | CYA_GRANULAR
  | CYA_LIQUID
  | POOL_SALT
  | BORAX_BORATE
  | BORIC_ACID
  | SODIUM_TETRABORATE_PENTAHYDRATE
  deriving DecidableEq, Repr

/-- Chemical from `chemicals.py`: a registry entry with dosing properties.
The `secondary_effects` dict is embedded as an association list in the
insertion order of the Python literal. -/
structure Chemical where
  chemical_type : ChemicalType
  name : String
  multiplier : ℝ
  unit : String := "oz"
  volume_factor : Option ℝ := none
  affects : String
  secondary_effects : List (String × ℝ) := []

/-- CHEMICALS from `chemicals.py`: the fixed registry, as an association
list in the insertion order of the Python dict literal. -/
noncomputable def CHEMICALS : List (ChemicalType × Chemical) :=
  [(ChemicalType.BLEACH_6,
    { chemical_type := ChemicalType.BLEACH_6, name := "Bleach 6%",
      multiplier := 600.0, unit := "fl_oz", affects := "free_chlorine" }),
   (ChemicalType.BLEACH_8_25,
    { chemical_type := ChemicalType.BLEACH_8_25, name := "Bleach 8.25%",
      multiplier := 825.0, unit := "fl_oz", affects := "free_chlorine" }),
   (ChemicalType.BLEACH_10,
    { chemical_type := ChemicalType.BLEACH_10, name := "Bleach 10%",
      multiplier := 1000.0, unit := "fl_oz", affects := "free_chlorine" }),
   (ChemicalType.BLEACH_12_5,
    { chemical_type := ChemicalType.BLEACH_12_5, name := "Bleach 12.5%",
      multiplier := 1250.0, unit := "fl_oz", affects := "free_chlorine" }),
   (ChemicalType.TRICHLOR,
    { chemical_type := ChemicalType.TRICHLOR, name := "Trichlor (90%)",
      multiplier := 6854.95, unit := "oz", volume_factor := some 0.9351,
      affects := "free_chlorine",
      secondary_effects :=
        [("cyanuric_acid", 4159.41), ("ph", -367.0), ("salt", 5600.0)] }),
   (ChemicalType.DICHLOR,
    { chemical_type := ChemicalType.DICHLOR, name := "Dichlor (56%)",
      multiplier := 4149.03, unit := "oz", volume_factor := some 0.9352,
      affects := "free_chlorine",
      secondary_effects :=
        [("cyanuric_acid", 3776.46), ("ph", -158.0), ("salt", 3384.0)] }),
   (ChemicalType.CAL_HYPO_48,
    { chemical_type := ChemicalType.CAL_HYPO_48, name := "Cal-Hypo 48%",
      multiplier := 3565.44, unit := "oz", volume_factor := some 0.9352,
      affects := "free_chlorine",
      secondary_effects := [("calcium_hardness", 2938.56)] }),
   (ChemicalType.CAL_HYPO_53,
    { chemical_type := ChemicalType.CAL_HYPO_53, name := "Cal-Hypo 53%",
      multiplier := 3936.84, unit := "oz", volume_factor := some 0.9352,
      affects := "free_chlorine",
      secondary_effects := [("calcium_hardness", 3245.92)] }),
   (ChemicalType.CAL_HYPO_65,
    { chemical_type := ChemicalType.CAL_HYPO_65, name := "Cal-Hypo 65%",
      multiplier := 5422.41, unit := "oz", volume_factor := some 0.9352,
      affects := "free_chlorine",
      secondary_effects := [("calcium_hardness", 3827.09), ("salt", 5500.0)] }),
   (ChemicalType.CAL_HYPO_73,
    { chemical_type := ChemicalType.CAL_HYPO_73, name := "Cal-Hypo 73%",
      multiplier := 6092.62, unit := "oz", volume_factor := some 0.9352,
      affects := "free_chlorine",
      secondary_effects := [("calcium_hardness", 4295.56), ("salt", 6175.0)] }),
   (ChemicalType.LITHIUM_HYPO,
    { chemical_type := ChemicalType.LITHIUM_HYPO,
      name := "Lithium Hypochlorite (35%)",
      multiplier := 2637.5, unit := "oz", volume_factor := some 0.978,
      affects := "free_chlorine",
      secondary_effects := [("salt", 2711.0)] }),
   (ChemicalType.CHLORINE_GAS,
    { chemical_type := ChemicalType.CHLORINE_GAS, name := "Chlorine Gas",
      multiplier := 7489.4, unit := "oz", affects := "free_chlorine",
      secondary_effects := [("ph", -625.0), ("salt", 6140.0)] }),
   (ChemicalType.MURIATIC_ACID_14_5,
    { chemical_type := ChemicalType.MURIATIC_ACID_14_5,
      name := "Muriatic Acid 14.5% (10 Baume)",
      multiplier := 240.15 / 2.16897, unit := "fl_oz", affects := "ph",
      secondary_effects := [("total_alkalinity", -3911.47 / 2.16897)] }),
   (ChemicalType.MURIATIC_ACID_15_7,
    { chemical_type := ChemicalType.MURIATIC_ACID_15_7,
      name := "Muriatic Acid 15.7%",
      multiplier := 240.15 / 2.0, unit := "fl_oz", affects := "ph",
      secondary_effects := [("total_alkalinity", -3911.47 / 2.0)] }),
   (ChemicalType.MURIATIC_ACID_20,
    { chemical_type := ChemicalType.MURIATIC_ACID_20,
      name := "Muriatic Acid 20% (22 Baume)",
      multiplier := 240.15 / 1.5725, unit := "fl_oz", affects := "ph",
      secondary_effects := [("total_alkalinity", -3911.47 / 1.5725)] }),
   (ChemicalType.MURIATIC_ACID_28_3,
    { chemical_type := ChemicalType.MURIATIC_ACID_28_3,
      name := "Muriatic Acid 28.3%",
      multiplier := 240.15 / 1.11111, unit := "fl_oz", affects := "ph",
      secondary_effects := [("total_alkalinity", -3911.47 / 1.11111)] }),
   (ChemicalType.MURIATIC_ACID_31_45,
    { chemical_type := ChemicalType.MURIATIC_ACID_31_45,
      name := "Muriatic Acid 31.45% (20 Baume)",
      multiplier := 240.15, unit := "fl_oz", affects := "ph",
      secondary_effects := [("total_alkalinity", -3911.47)] }),
   (ChemicalType.MURIATIC_ACID_34_6,
    { chemical_type := ChemicalType.MURIATIC_ACID_34_6,
      name := "Muriatic Acid 34.6%",
      multiplier := 240.15 / 0.909091, unit := "fl_oz", affects := "ph",
      secondary_effects := [("total_alkalinity", -3911.47 / 0.909091)] }),
   (ChemicalType.DRY_ACID,
    { chemical_type := ChemicalType.DRY_ACID,
      name := "Dry Acid (Sodium Bisulfate)",
      multiplier := 178.66, unit := "oz", volume_factor := some 0.6657,
      affects := "ph",
      secondary_effects := [("total_alkalinity", -2909.47)] }),
   (ChemicalType.SODA_ASH,
    { chemical_type := ChemicalType.SODA_ASH,
      name := "Soda Ash (Sodium Carbonate)",
      multiplier := 218.68, unit := "oz", volume_factor := some 0.8715,
      affects := "ph",
      secondary_effects := [("total_alkalinity", 7072.46)] }),
   (ChemicalType.BORAX,
    { chemical_type := ChemicalType.BORAX, name := "Borax (20 Mule Team)",
      multiplier := 110.05, unit := "oz", volume_factor := some 0.9586,
      affects := "ph",
      secondary_effects := [("borates", 849.271)] }),
   (ChemicalType.BAKING_SODA,
    { chemical_type := ChemicalType.BAKING_SODA,
      name := "Baking Soda (Sodium Bicarbonate)",
      multiplier := 4259.15, unit := "oz", volume_factor := some 0.7988,
      affects := "total_alkalinity",
      secondary_effects := [("ph", 9.091)] }),
   (ChemicalType.CALCIUM_CHLORIDE_ANHYDROUS,
    { chemical_type := ChemicalType.CALCIUM_CHLORIDE_ANHYDROUS,
      name := "Calcium Chloride Anhydrous (94-97%)",
      multiplier := 6754.11, unit := "oz", volume_factor := some 0.7988,
      affects := "calcium_hardness" }),
   (ChemicalType.CALCIUM_CHLORIDE_DIHYDRATE,
    { chemical_type := ChemicalType.CALCIUM_CHLORIDE_DIHYDRATE,
      name := "Calcium Chloride Dihydrate/Flake (77-80%)",
      multiplier := 5098.82, unit := "oz", volume_factor := some 1.148,
      affects := "calcium_hardness" }),
   (ChemicalType.CYA_GRANULAR,
    { chemical_type := ChemicalType.CYA_GRANULAR,
      name := "Cyanuric Acid Granular",
      multiplier := 7489.51, unit := "oz", volume_factor := some 1.042,
      affects := "cyanuric_acid",
      secondary_effects := [("ph", -138.8)] }),
   (ChemicalType.CYA_LIQUID,
    { chemical_type := ChemicalType.CYA_LIQUID,
      name := "Cyanuric Acid Liquid",
      multiplier := 2890.0, unit := "fl_oz", affects := "cyanuric_acid" }),
   (ChemicalType.POOL_SALT,
    { chemical_type := ChemicalType.POOL_SALT,
      name := "Pool Salt (Sodium Chloride)",
      multiplier := 7468.64, unit := "oz", affects := "salt" }),
   (ChemicalType.BORAX_BORATE,
    { chemical_type := ChemicalType.BORAX_BORATE,
      name := "Borax (for borate level)",
      multiplier := 849.271, unit := "oz", volume_factor := some 1.075,
      affects := "borates",
      secondary_effects := [("ph", 110.05)] }),
   (ChemicalType.BORIC_ACID,
    { chemical_type := ChemicalType.BORIC_ACID, name := "Boric Acid",
      multiplier := 1309.52, unit := "oz", volume_factor := some 0.5296,
      affects := "borates" }),
   (ChemicalType.SODIUM_TETRABORATE_PENTAHYDRATE,
    { chemical_type := ChemicalType.SODIUM_TETRABORATE_PENTAHYDRATE,
      name := "Sodium Tetraborate Pentahydrate (ProTeam Supreme)",
      multiplier := 1111.69, unit := "oz", volume_factor := some 0.9586,
      affects := "borates" })]

/-- get_chemical from `chemicals.py`: registry lookup, raising
ChemicalNotFoundError (embedded as `Except.error`) for a missing key. -/
noncomputable def get_chemical (chemical_type : ChemicalType) : Except String Chemical :=
  match CHEMICALS.lookup chemical_type with
  | some chem => Except.ok chem
  | none => Except.error "Chemical type not found"

/-- DosingResult from `calculator.py`.  Strings interpolating computed
numbers keep the surrounding text with the number elided as `[..]`. -/
structure DosingResult where
  chemical : Chemical
  amount : ℝ
  unit : String
  amount_volume : Option ℝ := none
  volume_unit : Option String := none
  notes : Option String := none

/-- The `amount_volume` field construction shared by the dosing functions:
`amount * volume_factor` when a volume factor is set, rounded to two
decimals, `None` when the product is zero (Python float truthiness). -/
noncomputable def doseAmountVolume (chemical : Chemical) (amount : ℝ) : Option ℝ :=
  match chemical.volume_factor with
  | none => none
  | some vf => if amount * vf = 0 then none else some (round_to 2 (amount * vf))

/-- The `volume_unit` field construction shared by the dosing functions in
`calculator.py` that use `"cups" if chemical.unit == "oz" else chemical.unit`. -/
def doseVolumeUnitCups (chemical : Chemical) : Option String :=
  match chemical.volume_factor with
  | none => none
  | some _ => some (if chemical.unit = "oz" then "cups" else chemical.unit)

/-- calculate_chlorine_dose from `calculator.py`. -/
noncomputable def calculate_chlorine_dose (current_fc target_fc pool_gallons : ℝ)
    (chemical_type : ChemicalType := ChemicalType.BLEACH_12_5) :
    Except String DosingResult := do
  let chemical ← get_chemical chemical_type
  let fc_change := target_fc - current_fc
  if fc_change ≤ 0 then
    return { chemical := chemical, amount := 0, unit := chemical.unit,
             notes := some "FC is already at or above target" }
  else
    let amount := (fc_change * pool_gallons) / chemical.multiplier
    return { chemical := chemical, amount := round_to 2 amount,
             unit := chemical.unit,
             amount_volume := doseAmountVolume chemical amount,
             volume_unit := doseVolumeUnitCups chemical }

/-- The pH adjustment factor helper from `calculator.py` (source name
with a leading underscore):
temp = (T_F - 60)/20; (192.1626 - 60.1221·temp + 6.0752·temp² - 0.1943·temp³)·(TA + 13.91)/114.6. -/
noncomputable def calculate_ph_adjustment_factor
    (temperature_f total_alkalinity : ℝ) : ℝ :=
  let temp := (temperature_f - 60) / 20
  (192.1626 - 60.1221 * temp + 6.0752 * temp ^ 2 - 0.1943 * temp ^ 3)
    * (total_alkalinity + 13.91) / 114.6

/-- The borate correction helper from `calculator.py` (source name with a
leading underscore). -/
noncomputable def calculate_borate_correction
    (temperature_f borates ph_change : ℝ) : ℝ :=
  if borates ≤ 0 then 0
  else
    let temp := (temperature_f - 60) / 20
    (-5.476259 + 2.414292 * temp - 0.355882 * temp ^ 2 + 0.01755 * temp ^ 3)
      * borates * ph_change

/-- The `amount` variable of calculate_ph_dose just before the final
`round(amount, 2)`: the direction-dependent absolute dose scaled by
`pool_gallons / 10000`. -/
noncomputable def ph_dose_raw (ph_change pool_gallons total_alkalinity
    temperature_f borates : ℝ) (raise_ph : Bool) (multiplier : ℝ) : ℝ :=
  let adj := calculate_ph_adjustment_factor temperature_f total_alkalinity
  let delta := ph_change * adj
  let extra := calculate_borate_correction temperature_f borates ph_change
  let amount :=
    if raise_ph then |delta / multiplier + extra / multiplier|
    else |delta / -multiplier + extra / -multiplier|
  amount * pool_gallons / 10000

/-- calculate_ph_dose from `calculator.py`. -/
noncomputable def calculate_ph_dose (current_ph target_ph pool_gallons
    total_alkalinity : ℝ) (temperature_f : ℝ := 80) (borates : ℝ := 0)
    (raise_ph : Option Bool := none)
    (chemical_type : Option ChemicalType := none) :
    Except String DosingResult := do
  let ph_change := target_ph - current_ph
  let raise_ph := raise_ph.getD (decide (ph_change > 0))
  let chemical_type := chemical_type.getD
    (if raise_ph then ChemicalType.SODA_ASH else ChemicalType.MURIATIC_ACID_31_45)
  let chemical ← get_chemical chemical_type
  if |ph_change| < 0.01 then
    return { chemical := chemical, amount := 0, unit := chemical.unit,
             notes := some "pH is already at target" }
  else
    let amount := ph_dose_raw ph_change pool_gallons total_alkalinity
      temperature_f borates raise_ph chemical.multiplier
    return { chemical := chemical, amount := round_to 2 amount,
             unit := chemical.unit,
             amount_volume := doseAmountVolume chemical amount,
             volume_unit := doseVolumeUnitCups chemical }

/-- calculate_alkalinity_dose from `calculator.py`. -/
noncomputable def calculate_alkalinity_dose (current_ta target_ta pool_gallons : ℝ)
    (chemical_type : ChemicalType := ChemicalType.BAKING_SODA) :
    Except String DosingResult := do
  let chemical ← get_chemical chemical_type
  let ta_change := target_ta - current_ta
  if ta_change ≤ 0 then
    return { chemical := chemical, amount := 0, unit := chemical.unit,
             notes := some "TA is already at or above target. Lower TA with acid + aeration." }
  else
    let amount := (ta_change * pool_gallons) / chemical.multiplier
    return { chemical := chemical, amount := round_to 2 amount,
             unit := chemical.unit,
             amount_volume := doseAmountVolume chemical amount,
             volume_unit := (chemical.volume_factor.map fun _ => "cups") }

/-- calculate_calcium_dose from `calculator.py`. -/
noncomputable def calculate_calcium_dose (current_ch target_ch pool_gallons : ℝ)
    (chemical_type : ChemicalType := ChemicalType.CALCIUM_CHLORIDE_DIHYDRATE) :
    Except String DosingResult := do
  let chemical ← get_chemical chemical_type
  let ch_change := target_ch - current_ch
  if ch_change ≤ 0 then
    return { chemical := chemical, amount := 0, unit := chemical.unit,
             notes := some "CH is already at or above target. Lower CH with water replacement." }
  else
    let amount := (ch_change * pool_gallons) / chemical.multiplier
    return { chemical := chemical, amount := round_to 2 amount,
             unit := chemical.unit,
             amount_volume := doseAmountVolume chemical amount,
             volume_unit := (chemical.volume_factor.map fun _ => "cups") }

/-- calculate_cya_dose from `calculator.py`. -/
noncomputable def calculate_cya_dose (current_cya target_cya pool_gallons : ℝ)
    (chemical_type : ChemicalType := ChemicalType.CYA_GRANULAR) :
    Except String DosingResult := do
  let chemical ← get_chemical chemical_type
  let cya_change := target_cya - current_cya
  if cya_change ≤ 0 then
    return { chemical := chemical, amount := 0, unit := chemical.unit,
             notes := some "CYA is already at or above target. Lower CYA with water replacement." }
  else
    let amount := (cya_change * pool_gallons) / chemical.multiplier
    return { chemical := chemical, amount := round_to 2 amount,
             unit := chemical.unit,
             amount_volume := doseAmountVolume chemical amount,
             volume_unit := (chemical.volume_factor.map fun _ => "cups") }

/-- calculate_salt_dose from `calculator.py`: the ounce amount is divided
by 16 to pounds and rounded to one decimal. -/
noncomputable def calculate_salt_dose (current_salt target_salt pool_gallons : ℝ) :
    Except String DosingResult := do
  let chemical ← get_chemical ChemicalType.POOL_SALT
  let salt_change := target_salt - current_salt
  if salt_change ≤ 0 then
    return { chemical := chemical, amount := 0, unit := "lbs",
             notes := some "Salt is already at or above target. Lower salt with water replacement." }
  else
    let amount_oz := (salt_change * pool_gallons) / chemical.multiplier
    let amount_lbs := amount_oz / 16
    return { chemical := chemical, amount := round_to 1 amount_lbs,
             unit := "lbs",
             notes := some "Approximately [..] oz" }

/-- calculate_borate_dose from `calculator.py`. -/
noncomputable def calculate_borate_dose (current_borates target_borates pool_gallons : ℝ)
    (chemical_type : ChemicalType := ChemicalType.BORAX_BORATE) :
    Except String DosingResult := do
  let chemical ← get_chemical chemical_type
  let borate_change := target_borates - current_borates
  if borate_change ≤ 0 then
    return { chemical := chemical, amount := 0, unit := chemical.unit,
             notes := some "Borates already at or above target." }
  else
    let amount := (borate_change * pool_gallons) / chemical.multiplier
    let notes : Option String :=
      if chemical_type = ChemicalType.BORIC_ACID then
        some "Requires [..] fl oz muriatic acid (31.45%) to neutralize"
      else if chemical_type = ChemicalType.SODIUM_TETRABORATE_PENTAHYDRATE then
        some "Requires [..] fl oz muriatic acid (31.45%) to neutralize"
      else none
    return { chemical := chemical, amount := round_to 2 amount,
             unit := chemical.unit,
             amount_volume := doseAmountVolume chemical amount,
             volume_unit := (chemical.volume_factor.map fun _ => "cups"),
             notes := notes }

/-- WaterChemistry from `models/water.py`: the immutable snapshot of the
water parameters, embedded as a plain record of reals. -/
structure WaterChemistry where
  ph : ℝ
  temperature_f : ℝ
  free_chlorine : ℝ := 0
  combined_chlorine : ℝ := 0
  total_alkalinity : ℝ
  calcium_hardness : ℝ
  cyanuric_acid : ℝ := 0
  salt : ℝ := 0
  borates : ℝ := 0
  tds : ℝ := 1000

/-- The working copies of the chemistry fields inside predict_effect
(the new_fc, new_cc, ... local variables). -/
structure EffectLevels where
  fc : ℝ
  cc : ℝ
  ph : ℝ
  ta : ℝ
  ch : ℝ
  cya : ℝ
  salt : ℝ
  borates : ℝ

/-- One arm of the `match` statements in predict_effect: add
`change = effect_factor · multiplier` to the named parameter (pH changes
are divided by 100); an unknown parameter name changes nothing. -/
noncomputable def applyEffect (l : EffectLevels) (param : String) (change : ℝ) :
    EffectLevels :=
  if param = "free_chlorine" then { l with fc := l.fc + change }
  else if param = "ph" then { l with ph := l.ph + change / 100 }
  else if param = "total_alkalinity" then { l with ta := l.ta + change }
  else if param = "calcium_hardness" then { l with ch := l.ch + change }
  else if param = "cyanuric_acid" then { l with cya := l.cya + change }
  else if param = "salt" then { l with salt := l.salt + change }
  else if param = "borates" then { l with borates := l.borates + change }
  else l

/-- predict_effect from `effects/predictions.py`: apply the primary effect
and then each secondary effect, clamp concentrations to be nonnegative and
pH to [0, 14], round to the field precisions, and carry temperature and
TDS over unchanged. -/
noncomputable def predict_effect (water : WaterChemistry)
    (chemical_type : ChemicalType) (amount_oz pool_gallons : ℝ) :
    Except String WaterChemistry := do
  let chemical ← get_chemical chemical_type
  let start : EffectLevels :=
    { fc := water.free_chlorine, cc := water.combined_chlorine,
      ph := water.ph, ta := water.total_alkalinity,
      ch := water.calcium_hardness, cya := water.cyanuric_acid,
      salt := water.salt, borates := water.borates }
  let effect_factor := amount_oz / pool_gallons
  let l := applyEffect start chemical.affects (effect_factor * chemical.multiplier)
  let l := chemical.secondary_effects.foldl
    (fun l eff => applyEffect l eff.1 (effect_factor * eff.2)) l
  return { ph := round_to 2 (max 0 (min 14 l.ph)),
           temperature_f := water.temperature_f,
           free_chlorine := round_to 1 (max 0 l.fc),
           combined_chlorine := round_to 1 (max 0 l.cc),
           total_alkalinity := round_to 0 (max 0 l.ta),
           calcium_hardness := round_to 0 (max 0 l.ch),
           cyanuric_acid := round_to 0 (max 0 l.cya),
           salt := round_to 0 (max 0 l.salt),
           borates := round_to 0 (max 0 l.borates),
           tds := water.tds }

/-- predict_multiple_effects from `effects/predictions.py`. -/
noncomputable def predict_multiple_effects (water : WaterChemistry)
    (additions : List (ChemicalType × ℝ)) (pool_gallons : ℝ) :
    Except String WaterChemistry :=
  additions.foldlM
    (fun current add => predict_effect current add.1 add.2 pool_gallons) water

/-! ## Helper lemmas -/

lemma round_to_eq {n : ℕ} {x : ℝ} {k : ℤ}
    (h1 : (k : ℝ) ≤ x * 10 ^ n + 1 / 2) (h2 : x * 10 ^ n + 1 / 2 < k + 1) :
    round_to n x = (k : ℝ) / 10 ^ n := by
  unfold round_to
  rw [round_eq, show ⌊x * 10 ^ n + 1 / 2⌋ = k from Int.floor_eq_iff.mpr ⟨h1, h2⟩]

lemma round_to_mono (n : ℕ) {x y : ℝ} (h : x ≤ y) : round_to n x ≤ round_to n y := by
  unfold round_to
  have hp : (0 : ℝ) < 10 ^ n := by positivity
  have hr : round (x * 10 ^ n) ≤ round (y * 10 ^ n) := by
    rw [round_eq, round_eq]
    exact Int.floor_le_floor (by nlinarith)
  have hc : ((round (x * 10 ^ n) : ℤ) : ℝ) ≤ ((round (y * 10 ^ n) : ℤ) : ℝ) := by
    exact_mod_cast hr
  gcongr

lemma round_to_nonneg (n : ℕ) {x : ℝ} (h : 0 ≤ x) : 0 ≤ round_to n x := by
  have h0 : round_to n 0 = ((0 : ℤ) : ℝ) / 10 ^ n := round_to_eq (by norm_num) (by norm_num)
  have := round_to_mono n h
  simpa [h0] using this

/-- Every enumeration member is a key of the CHEMICALS registry, and the
stored entry records the member as its own chemical_type. -/
lemma chemicals_lookup_total (ct : ChemicalType) :
    ∃ c, CHEMICALS.lookup ct = some c ∧ c.chemical_type = ct := by
  cases ct <;> exact ⟨_, rfl, rfl⟩

lemma interpSearch_neg {x t1 f1 t2 f2 : ℝ} {rest : List (ℝ × ℝ)}
    (h : ¬(t1 ≤ x ∧ x < t2)) :
    interpSearch x ((t1, f1) :: (t2, f2) :: rest) = interpSearch x ((t2, f2) :: rest) := by
  rw [interpSearch, if_neg h]

lemma interpSearch_pos {x t1 f1 t2 f2 : ℝ} {rest : List (ℝ × ℝ)}
    (h1 : t1 ≤ x) (h2 : x < t2) :
    interpSearch x ((t1, f1) :: (t2, f2) :: rest) =
      some (f1 + (f2 - f1) * (x - t1) / (t2 - t1)) := by
  rw [interpSearch, if_pos ⟨h1, h2⟩]

/-! ## Claim theorems -/

/-- C1 counterexample: at pH 6.83, 84 °F, CH 1, TA -100, CYA -600 the
required fields are present, CH > 0 and the carbonate alkalinity is
positive, yet the ionic strength is negative, so the source raises
ValueError from the unguarded math.sqrt instead of returning the formula. -/
theorem calculate_csi_formula_counterexample :
    (0 : ℝ) < 1 ∧
    0 < calculate_carbonate_alkalinity (-100) (-600) 6.83 0 ∧
    calculate_ionic_strength 1 (-100) 0 < 0 ∧
    calculate_csi (some 6.83) (some 84) (some 1) (some (-100)) (-600) 0 0 =
      Except.error "math domain error" := by
  have hcarb : 0 < calculate_carbonate_alkalinity (-100) (-600) 6.83 0 := by
    simp only [calculate_carbonate_alkalinity, sub_self, Real.rpow_zero]
    norm_num [max_def]
  have hion : calculate_ionic_strength 1 (-100) 0 < 0 := by
    norm_num [calculate_ionic_strength, max_def]
  refine ⟨by norm_num, hcarb, hion, ?_⟩
  simp only [calculate_csi]
  rw [if_neg (by norm_num), if_neg (not_le.mpr hcarb), if_pos hion]

/-- C1 amended: whenever pH, temperature, calcium hardness and total
alkalinity are present, calcium hardness is positive, the carbonate
alkalinity of §4.2 is positive and additionally the ionic strength of
(CH, TA, salt) is nonnegative (without which math.sqrt raises ValueError),
calculate_csi returns exactly
pH - 11.677 + log10(CH) + log10(CarbAlk)
- (2.56·sqrt(Ionic))/(1 + 1.65·sqrt(Ionic)) - 1412.5/((T_F-32)·5/9 + 273.15)
+ 4.7375 with Ionic = calculate_ionic_strength(CH, TA, salt). -/
theorem calculate_csi_formula (ph tf ch ta cya salt b : ℝ)
    (hch : 0 < ch)
    (hcarb : 0 < calculate_carbonate_alkalinity ta cya ph b)
    (hion : 0 ≤ calculate_ionic_strength ch ta salt) :
    calculate_csi (some ph) (some tf) (some ch) (some ta) cya salt b =
      Except.ok (ph - 11.677 + Real.logb 10 ch
        + Real.logb 10 (calculate_carbonate_alkalinity ta cya ph b)
        - (2.56 * Real.sqrt (calculate_ionic_strength ch ta salt))
            / (1 + 1.65 * Real.sqrt (calculate_ionic_strength ch ta salt))
        - 1412.5 / ((tf - 32) * 5 / 9 + 273.15) + 4.7375) := by
  simp only [calculate_csi]
  rw [if_neg (not_le.mpr hch), if_neg (not_le.mpr hcarb), if_neg (not_lt.mpr hion)]

/-- C1 witness: the CSI formula at pH 7.5, 84 °F, CH 300, TA 80 and zero
CYA, salt and borates. -/
theorem calculate_csi_formula_witness :
    calculate_csi (some 7.5) (some 84) (some 300) (some 80) 0 0 0 =
      Except.ok (7.5 - 11.677 + Real.logb 10 300
        + Real.logb 10 (calculate_carbonate_alkalinity 80 0 7.5 0)
        - (2.56 * Real.sqrt (calculate_ionic_strength 300 80 0))
            / (1 + 1.65 * Real.sqrt (calculate_ionic_strength 300 80 0))
        - 1412.5 / ((84 - 32) * 5 / 9 + 273.15) + 4.7375) :=
  calculate_csi_formula 7.5 84 300 80 0 0 0 (by norm_num)
    (by norm_num [calculate_carbonate_alkalinity])
    (by norm_num [calculate_ionic_strength, max_def])

/-- C2: whenever pH, temperature, calcium hardness and total alkalinity are
present, calcium hardness is positive and TA - CYA·cya_correction_factor(pH)
is positive, calculate_lsi returns exactly
pH + temperature_factor(T_F) + log10(CH) + log10(TA - CYA·f(pH)) - 12.1. -/
theorem calculate_lsi_formula (ph tf ch ta cya tds : ℝ)
    (hch : 0 < ch)
    (hcarb : 0 < ta - cya * get_cya_correction_factor ph) :
    calculate_lsi (some ph) (some tf) (some ch) (some ta) cya tds =
      Except.ok (ph + interpolate_temperature_factor tf + Real.logb 10 ch
        + Real.logb 10 (ta - cya * get_cya_correction_factor ph) - 12.1) := by
  simp only [calculate_lsi, calculate_temperature_factor]
  rw [if_neg (not_le.mpr hch), if_neg (not_le.mpr hcarb)]

/-- C2 witness: the LSI formula at pH 7.5, 84 °F, CH 300, TA 80, CYA 0. -/
theorem calculate_lsi_formula_witness :
    calculate_lsi (some 7.5) (some 84) (some 300) (some 80) 0 1000 =
      Except.ok (7.5 + interpolate_temperature_factor 84 + Real.logb 10 300
        + Real.logb 10 (80 - 0 * get_cya_correction_factor 7.5) - 12.1) :=
  calculate_lsi_formula 7.5 84 300 80 0 1000 (by norm_num) (by norm_num)

/-- C6: the FC/CYA threshold functions compute the floored TFP formulas,
with floors 1 (minimum FC), 10 (shock) and 12 (mustard-algae shock), and
the spot values min_fc(50, non-SWG) = 4, min_fc(70, SWG) = 3,
shock_fc(50) = 20, mustard_algae_shock_fc(50) = 29. -/
theorem fc_cya_formulas :
    (∀ cya : ℝ, ∀ swg : Bool, calculate_min_fc cya swg =
      if cya ≤ 0 then 1
      else if swg then max 1 ((⌊0.045 * cya + 0.7⌋ : ℤ) : ℝ)
      else max 1 ((⌊0.075 * cya + 0.7⌋ : ℤ) : ℝ)) ∧
    (∀ cya : ℝ, calculate_shock_fc cya =
      if cya ≤ 0 then 10 else max 10 ((⌊0.393 * cya + 0.5⌋ : ℤ) : ℝ)) ∧
    (∀ cya : ℝ, calculate_mustard_algae_shock_fc cya =
      if cya ≤ 0 then 12 else max 12 ((⌊cya / 2 + 4.5⌋ : ℤ) : ℝ)) ∧
    calculate_min_fc 50 false = 4 ∧ calculate_min_fc 70 true = 3 ∧
    calculate_shock_fc 50 = 20 ∧ calculate_mustard_algae_shock_fc 50 = 29 := by
  refine ⟨?_, ?_, ?_, ?_, ?_, ?_, ?_⟩
  · intro cya swg
    norm_num [calculate_min_fc, mul_comm]
  · intro cya
    norm_num [calculate_shock_fc, mul_comm]
  · intro cya
    norm_num [calculate_mustard_algae_shock_fc]
  · have h : (⌊(50 : ℝ) * 0.075 + 0.7⌋ : ℤ) = 4 := by
      rw [Int.floor_eq_iff]
      norm_num
    norm_num [calculate_min_fc, h]
  · have h : (⌊(70 : ℝ) * 0.045 + 0.7⌋ : ℤ) = 3 := by
      rw [Int.floor_eq_iff]
      norm_num
    norm_num [calculate_min_fc, h]
  · have h : (⌊(50 : ℝ) * 0.393 + 0.5⌋ : ℤ) = 20 := by
      rw [Int.floor_eq_iff]
      norm_num
    norm_num [calculate_shock_fc, h]
  · have h : (⌊(50 : ℝ) / 2 + 4.5⌋ : ℤ) = 29 := by
      rw [Int.floor_eq_iff]
      norm_num
    norm_num [calculate_mustard_algae_shock_fc, h]

/-- C3 counterexample: at pH 6.83, 84 °F, CH 1, TA -100, CYA -600 none of
the claimed error conditions holds (all fields present, CH > 0, carbonate
alkalinity > 0), yet calculate_csi fails: the unguarded math.sqrt raises
ValueError because the ionic strength is negative, so the claimed
characterization of the error cases is not exhaustive for CSI. -/
theorem csi_error_characterization_counterexample :
    (∃ e, calculate_csi (some 6.83) (some 84) (some 1) (some (-100)) (-600) 0 0 =
      Except.error e) ∧
    ¬((some (6.83 : ℝ)) = none ∨ (some (84 : ℝ)) = none ∨
      (some (1 : ℝ)) = none ∨ (some (-100 : ℝ)) = none ∨
      (∃ c, (some (1 : ℝ)) = some c ∧ c ≤ 0) ∨
      (∃ p t, some (6.83 : ℝ) = some p ∧ some (-100 : ℝ) = some t ∧
        calculate_carbonate_alkalinity t (-600) p 0 ≤ 0)) := by
  have hcarb : 0 < calculate_carbonate_alkalinity (-100) (-600) 6.83 0 := by
    simp only [calculate_carbonate_alkalinity, sub_self, Real.rpow_zero]
    norm_num [max_def]
  have hion : calculate_ionic_strength 1 (-100) 0 < 0 := by
    norm_num [calculate_ionic_strength, max_def]
  constructor
  · refine ⟨"math domain error", ?_⟩
    simp only [calculate_csi]
    rw [if_neg (by norm_num), if_neg (not_le.mpr hcarb), if_pos hion]
  · intro hcon
    simp only [Option.some.injEq, exists_eq_left] at hcon
    rcases hcon with h | h | h | h | h | h
    · exact Option.noConfusion h
    · exact Option.noConfusion h
    · exact Option.noConfusion h
    · exact Option.noConfusion h
    · norm_num at h
    · obtain ⟨p, t, hp, ht, hle⟩ := h
      rw [← hp, ← ht] at hle
      exact absurd hle (not_le.mpr hcarb)

/-- C3 amended: calculate_csi and calculate_lsi fail exactly when a
required parameter is missing (with a message naming the field), calcium
hardness is nonpositive, the computed carbonate alkalinity is nonpositive,
or — for CSI only — the ionic strength is negative (the unguarded
math.sqrt raises ValueError there); in every other case they return a
value. -/
theorem csi_lsi_error_characterization
    (ph tf ch ta : Option ℝ) (cya salt b tds : ℝ) :
    ((∃ e, calculate_csi ph tf ch ta cya salt b = Except.error e) ↔
      ph = none ∨ tf = none ∨ ch = none ∨ ta = none ∨
      (∃ c, ch = some c ∧ c ≤ 0) ∨
      (∃ p t, ph = some p ∧ ta = some t ∧
        calculate_carbonate_alkalinity t cya p b ≤ 0) ∨
      (∃ c t, ch = some c ∧ ta = some t ∧
        calculate_ionic_strength c t salt < 0)) ∧
    ((∃ e, calculate_lsi ph tf ch ta cya tds = Except.error e) ↔
      ph = none ∨ tf = none ∨ ch = none ∨ ta = none ∨
      (∃ c, ch = some c ∧ c ≤ 0) ∨
      (∃ p t, ph = some p ∧ ta = some t ∧
        t - cya * get_cya_correction_factor p ≤ 0)) ∧
    (ph = none →
      calculate_csi ph tf ch ta cya salt b =
        Except.error "pH is required for CSI calculation" ∧
      calculate_lsi ph tf ch ta cya tds =
        Except.error "pH is required for LSI calculation") ∧
    (∀ p, ph = some p → tf = none →
      calculate_csi ph tf ch ta cya salt b =
        Except.error "Temperature is required for CSI calculation" ∧
      calculate_lsi ph tf ch ta cya tds =
        Except.error "Temperature is required for LSI calculation") ∧
    (∀ p t, ph = some p → tf = some t → ch = none →
      calculate_csi ph tf ch ta cya salt b =
        Except.error "Calcium hardness is required for CSI calculation" ∧
      calculate_lsi ph tf ch ta cya tds =
        Except.error "Calcium hardness is required for LSI calculation") ∧
    (∀ p t c, ph = some p → tf = some t → ch = some c → ta = none →
      calculate_csi ph tf ch ta cya salt b =
        Except.error "Total alkalinity is required for CSI calculation" ∧
      calculate_lsi ph tf ch ta cya tds =
        Except.error "Total alkalinity is required for LSI calculation") := by
  refine ⟨?_, ?_, ?_, ?_, ?_, ?_⟩
  · cases ph <;> cases tf <;> cases ch <;> cases ta <;> simp [calculate_csi]
    split_ifs with h1 h2 h3
    · simp [h1]
    · simp [h1, h2]
    · simp [h1, h2, h3]
    · simp [h1, h2, h3]
  · cases ph <;> cases tf <;> cases ch <;> cases ta <;> simp [calculate_lsi]
    split_ifs with h1 h2
    · simp [h1]
    · simp [h1, h2]
    · simp [h1, h2]
  · intro h
    subst h
    exact ⟨rfl, rfl⟩
  · intro p hp ht
    subst hp; subst ht
    exact ⟨rfl, rfl⟩
  · intro p t hp ht hc
    subst hp; subst ht; subst hc
    exact ⟨rfl, rfl⟩
  · intro p t c hp ht hc hta
    subst hp; subst ht; subst hc; subst hta
    exact ⟨rfl, rfl⟩

/-- C3 witness: the missing-field message at a concrete input with pH
absent. -/
theorem csi_lsi_error_characterization_witness :
    calculate_csi none (some 84) (some 300) (some 80) 0 0 0 =
      Except.error "pH is required for CSI calculation" ∧
    calculate_lsi none (some 84) (some 300) (some 80) 0 1000 =
      Except.error "pH is required for LSI calculation" :=
  (csi_lsi_error_characterization none (some 84) (some 300) (some 80)
    0 0 0 1000).2.2.1 rfl

/-- C5: interpolate_temperature_factor is total, clamps to 0.0 at or below
32 °F and to 0.9 at or above 105 °F, returns each breakpoint value exactly,
interpolates linearly between adjacent breakpoints (x1 ≤ x < x2 gives
y1 + (y2 - y1)·(x - x1)/(x2 - x1)), and its value at 80 °F is strictly
between 0.6 and 0.7. -/
theorem interpolate_temperature_factor_spec :
    (∀ x : ℝ, x ≤ 32 → interpolate_temperature_factor x = 0.0) ∧
    (∀ x : ℝ, 105 ≤ x → interpolate_temperature_factor x = 0.9) ∧
    (interpolate_temperature_factor 32 = 0.0 ∧ interpolate_temperature_factor 37 = 0.1 ∧
     interpolate_temperature_factor 46 = 0.2 ∧ interpolate_temperature_factor 53 = 0.3 ∧
     interpolate_temperature_factor 60 = 0.4 ∧ interpolate_temperature_factor 66 = 0.5 ∧
     interpolate_temperature_factor 76 = 0.6 ∧ interpolate_temperature_factor 84 = 0.7 ∧
     interpolate_temperature_factor 94 = 0.8 ∧ interpolate_temperature_factor 105 = 0.9) ∧
    (∀ x : ℝ, 32 ≤ x → x < 37 →
      interpolate_temperature_factor x = 0.0 + (0.1 - 0.0) * (x - 32) / (37 - 32)) ∧
    (∀ x : ℝ, 37 ≤ x → x < 46 →
      interpolate_temperature_factor x = 0.1 + (0.2 - 0.1) * (x - 37) / (46 - 37)) ∧
    (∀ x : ℝ, 46 ≤ x → x < 53 →
      interpolate_temperature_factor x = 0.2 + (0.3 - 0.2) * (x - 46) / (53 - 46)) ∧
    (∀ x : ℝ, 53 ≤ x → x < 60 →
      interpolate_temperature_factor x = 0.3 + (0.4 - 0.3) * (x - 53) / (60 - 53)) ∧
    (∀ x : ℝ, 60 ≤ x → x < 66 →
      interpolate_temperature_factor x = 0.4 + (0.5 - 0.4) * (x - 60) / (66 - 60)) ∧
    (∀ x : ℝ, 66 ≤ x → x < 76 →
      interpolate_temperature_factor x = 0.5 + (0.6 - 0.5) * (x - 66) / (76 - 66)) ∧
    (∀ x : ℝ, 76 ≤ x → x < 84 →
      interpolate_temperature_factor x = 0.6 + (0.7 - 0.6) * (x - 76) / (84 - 76)) ∧
    (∀ x : ℝ, 84 ≤ x → x < 94 →
      interpolate_temperature_factor x = 0.7 + (0.8 - 0.7) * (x - 84) / (94 - 84)) ∧
    (∀ x : ℝ, 94 ≤ x → x < 105 →
      interpolate_temperature_factor x = 0.8 + (0.9 - 0.8) * (x - 94) / (105 - 94)) ∧
    (0.6 < interpolate_temperature_factor 80 ∧ interpolate_temperature_factor 80 < 0.7) := by
  have hlow : ∀ x : ℝ, x ≤ 32 → interpolate_temperature_factor x = 0.0 := by
    intro x h
    simp only [interpolate_temperature_factor, tableInterpolate,
      TEMPERATURE_FACTOR_TABLE, lastPair]
    rw [if_pos h]
  have hhigh : ∀ x : ℝ, 105 ≤ x → interpolate_temperature_factor x = 0.9 := by
    intro x h
    simp only [interpolate_temperature_factor, tableInterpolate,
      TEMPERATURE_FACTOR_TABLE, lastPair]
    rw [if_neg (by norm_num; linarith), if_pos h]
  have hb1 : ∀ x : ℝ, 32 ≤ x → x < 37 →
      interpolate_temperature_factor x = 0.0 + (0.1 - 0.0) * (x - 32) / (37 - 32) := by
    intro x h1 h2
    simp only [interpolate_temperature_factor, tableInterpolate,
      TEMPERATURE_FACTOR_TABLE, lastPair]
    by_cases hx : x ≤ 32
    · have hx32 : x = 32 := le_antisymm hx h1
      rw [if_pos hx, hx32]
      norm_num
    · rw [if_neg hx, if_neg (by norm_num; linarith),
        interpSearch_pos (by linarith) (by linarith), Option.getD_some]
  have hb2 : ∀ x : ℝ, 37 ≤ x → x < 46 →
      interpolate_temperature_factor x = 0.1 + (0.2 - 0.1) * (x - 37) / (46 - 37) := by
    intro x h1 h2
    simp only [interpolate_temperature_factor, tableInterpolate,
      TEMPERATURE_FACTOR_TABLE, lastPair]
    rw [if_neg (by norm_num; linarith), if_neg (by norm_num; linarith),
      interpSearch_neg (by push_neg; intro; linarith),
      interpSearch_pos (by linarith) (by linarith), Option.getD_some]
  have hb3 : ∀ x : ℝ, 46 ≤ x → x < 53 →
      interpolate_temperature_factor x = 0.2 + (0.3 - 0.2) * (x - 46) / (53 - 46) := by
    intro x h1 h2
    simp only [interpolate_temperature_factor, tableInterpolate,
      TEMPERATURE_FACTOR_TABLE, lastPair]
    rw [if_neg (by norm_num; linarith), if_neg (by norm_num; linarith),
      interpSearch_neg (by push_neg; intro; linarith),
      interpSearch_neg (by push_neg; intro; linarith),
      interpSearch_pos (by linarith) (by linarith), Option.getD_some]
  have hb4 : ∀ x : ℝ, 53 ≤ x → x < 60 →
      interpolate_temperature_factor x = 0.3 + (0.4 - 0.3) * (x - 53) / (60 - 53) := by
    intro x h1 h2
    simp only [interpolate_temperature_factor, tableInterpolate,
      TEMPERATURE_FACTOR_TABLE, lastPair]
    rw [if_neg (by norm_num; linarith), if_neg (by norm_num; linarith),
      interpSearch_neg (by push_neg; intro; linarith),
      interpSearch_neg (by push_neg; intro; linarith),
      interpSearch_neg (by push_neg; intro; linarith),
      interpSearch_pos (by linarith) (by linarith), Option.getD_some]
  have hb5 : ∀ x : ℝ, 60 ≤ x → x < 66 →
      interpolate_temperature_factor x = 0.4 + (0.5 - 0.4) * (x - 60) / (66 - 60) := by
    intro x h1 h2
    simp only [interpolate_temperature_factor, tableInterpolate,
      TEMPERATURE_FACTOR_TABLE, lastPair]
    rw [if_neg (by norm_num; linarith), if_neg (by norm_num; linarith),
      interpSearch_neg (by push_neg; intro; linarith),
      interpSearch_neg (by push_neg; intro; linarith),
      interpSearch_neg (by push_neg; intro; linarith),
      interpSearch_neg (by push_neg; intro; linarith),
      interpSearch_pos (by linarith) (by linarith), Option.getD_some]
  have hb6 : ∀ x : ℝ, 66 ≤ x → x < 76 →
      interpolate_temperature_factor x = 0.5 + (0.6 - 0.5) * (x - 66) / (76 - 66) := by
    intro x h1 h2
    simp only [interpolate_temperature_factor, tableInterpolate,
      TEMPERATURE_FACTOR_TABLE, lastPair]
    rw [if_neg (by norm_num; linarith), if_neg (by norm_num; linarith),
      interpSearch_neg (by push_neg; intro; linarith),
      interpSearch_neg (by push_neg; intro; linarith),
      interpSearch_neg (by push_neg; intro; linarith),
      interpSearch_neg (by push_neg; intro; linarith),
      interpSearch_neg (by push_neg; intro; linarith),
      interpSearch_pos (by linarith) (by linarith), Option.getD_some]
  have hb7 : ∀ x : ℝ, 76 ≤ x → x < 84 →
      interpolate_temperature_factor x = 0.6 + (0.7 - 0.6) * (x - 76) / (84 - 76) := by
    intro x h1 h2
    simp only [interpolate_temperature_factor, tableInterpolate,
      TEMPERATURE_FACTOR_TABLE, lastPair]
    rw [if_neg (by norm_num; linarith), if_neg (by norm_num; linarith),
      interpSearch_neg (by push_neg; intro; linarith),
      interpSearch_neg (by push_neg; intro; linarith),
      interpSearch_neg (by push_neg; intro; linarith),
      interpSearch_neg (by push_neg; intro; linarith),
      interpSearch_neg (by push_neg; intro; linarith),
      interpSearch_neg (by push_neg; intro; linarith),
      interpSearch_pos (by linarith) (by linarith), Option.getD_some]
  have hb8 : ∀ x : ℝ, 84 ≤ x → x < 94 →
      interpolate_temperature_factor x = 0.7 + (0.8 - 0.7) * (x - 84) / (94 - 84) := by
    intro x h1 h2
    simp only [interpolate_temperature_factor, tableInterpolate,
      TEMPERATURE_FACTOR_TABLE, lastPair]
    rw [if_neg (by norm_num; linarith), if_neg (by norm_num; linarith),
      interpSearch_neg (by push_neg; intro; linarith),
      interpSearch_neg (by push_neg; intro; linarith),
      interpSearch_neg (by push_neg; intro; linarith),
      interpSearch_neg (by push_neg; intro; linarith),
      interpSearch_neg (by push_neg; intro; linarith),
      interpSearch_neg (by push_neg; intro; linarith),
      interpSearch_neg (by push_neg; intro; linarith),
      interpSearch_pos (by linarith) (by linarith), Option.getD_some]
  have hb9 : ∀ x : ℝ, 94 ≤ x → x < 105 →
      interpolate_temperature_factor x = 0.8 + (0.9 - 0.8) * (x - 94) / (105 - 94) := by
    intro x h1 h2
    simp only [interpolate_temperature_factor, tableInterpolate,
      TEMPERATURE_FACTOR_TABLE, lastPair]
    rw [if_neg (by norm_num; linarith), if_neg (by norm_num; linarith),
      interpSearch_neg (by push_neg; intro; linarith),
      interpSearch_neg (by push_neg; intro; linarith),
      interpSearch_neg (by push_neg; intro; linarith),
      interpSearch_neg (by push_neg; intro; linarith),
      interpSearch_neg (by push_neg; intro; linarith),
      interpSearch_neg (by push_neg; intro; linarith),
      interpSearch_neg (by push_neg; intro; linarith),
      interpSearch_neg (by push_neg; intro; linarith),
      interpSearch_pos (by linarith) (by linarith), Option.getD_some]
  have h80 : interpolate_temperature_factor 80 = 0.65 := by
    rw [hb7 80 (by norm_num) (by norm_num)]
    norm_num
  refine ⟨hlow, hhigh,
    ⟨hlow 32 (by norm_num), ?_, ?_, ?_, ?_, ?_, ?_, ?_, ?_, hhigh 105 (by norm_num)⟩,
    hb1, hb2, hb3, hb4, hb5, hb6, hb7, hb8, hb9,
    by rw [h80]; norm_num, by rw [h80]; norm_num⟩
  · rw [hb2 37 (by norm_num) (by norm_num)]; norm_num
  · rw [hb3 46 (by norm_num) (by norm_num)]; norm_num
  · rw [hb4 53 (by norm_num) (by norm_num)]; norm_num
  · rw [hb5 60 (by norm_num) (by norm_num)]; norm_num
  · rw [hb6 66 (by norm_num) (by norm_num)]; norm_num
  · rw [hb7 76 (by norm_num) (by norm_num)]; norm_num
  · rw [hb8 84 (by norm_num) (by norm_num)]; norm_num
  · rw [hb9 94 (by norm_num) (by norm_num)]; norm_num

/-- C5 witness: the clamped values at 20 °F and 110 °F and the bracketing
formula applied at 80 °F. -/
theorem interpolate_temperature_factor_spec_witness :
    interpolate_temperature_factor 20 = 0.0 ∧
    interpolate_temperature_factor 110 = 0.9 ∧
    interpolate_temperature_factor 80 = 0.6 + (0.7 - 0.6) * (80 - 76) / (84 - 76) :=
  ⟨interpolate_temperature_factor_spec.1 20 (by norm_num),
   interpolate_temperature_factor_spec.2.1 110 (by norm_num),
   interpolate_temperature_factor_spec.2.2.2.2.2.2.2.2.2.1 80 (by norm_num) (by norm_num)⟩

/-- C4 counterexample: strictly increasing CYA does not always strictly
decrease calculate_carbonate_alkalinity: at TA 20, pH 6.83, borates 0, the
results at CYA 200 and CYA 300 are both clamped to 0. -/
theorem carbonate_alkalinity_strict_decrease_counterexample :
    ¬ (calculate_carbonate_alkalinity 20 300 6.83 0 <
       calculate_carbonate_alkalinity 20 200 6.83 0) := by
  simp only [calculate_carbonate_alkalinity, sub_self, Real.rpow_zero]
  norm_num [max_def]

/-- C4 amended: calculate_carbonate_alkalinity (1) is the identity on TA
when CYA and borates are 0 and TA ≥ 0; (2) is weakly decreasing in CYA, and
strictly decreasing as long as the value at the smaller CYA is positive;
likewise weakly decreasing in borates over nonnegative borate levels, and
strictly so while the value at the smaller level is positive; (3) is never
negative. -/
theorem carbonate_alkalinity_props :
    (∀ ta ph : ℝ, 0 ≤ ta → calculate_carbonate_alkalinity ta 0 ph 0 = ta) ∧
    (∀ ta ph b cya₁ cya₂ : ℝ, cya₁ < cya₂ →
      calculate_carbonate_alkalinity ta cya₂ ph b ≤
        calculate_carbonate_alkalinity ta cya₁ ph b) ∧
    (∀ ta ph b cya₁ cya₂ : ℝ, cya₁ < cya₂ →
      0 < calculate_carbonate_alkalinity ta cya₁ ph b →
      calculate_carbonate_alkalinity ta cya₂ ph b <
        calculate_carbonate_alkalinity ta cya₁ ph b) ∧
    (∀ ta ph cya b₁ b₂ : ℝ, 0 ≤ b₁ → b₁ < b₂ →
      calculate_carbonate_alkalinity ta cya ph b₂ ≤
        calculate_carbonate_alkalinity ta cya ph b₁) ∧
    (∀ ta ph cya b₁ b₂ : ℝ, 0 ≤ b₁ → b₁ < b₂ →
      0 < calculate_carbonate_alkalinity ta cya ph b₁ →
      calculate_carbonate_alkalinity ta cya ph b₂ <
        calculate_carbonate_alkalinity ta cya ph b₁) ∧
    (∀ ta cya ph b : ℝ, 0 ≤ calculate_carbonate_alkalinity ta cya ph b) := by
  have hden : ∀ ph : ℝ, 0 < 1 + (10 : ℝ) ^ ((6.83 : ℝ) - ph) := by
    intro ph
    have := Real.rpow_pos_of_pos (show (0 : ℝ) < 10 by norm_num) (6.83 - ph)
    linarith
  have hden9 : ∀ ph : ℝ, 0 < 1 + (10 : ℝ) ^ ((9.11 : ℝ) - ph) := by
    intro ph
    have := Real.rpow_pos_of_pos (show (0 : ℝ) < 10 by norm_num) (9.11 - ph)
    linarith
  refine ⟨?_, ?_, ?_, ?_, ?_, ?_⟩
  · intro ta ph hta
    simp only [calculate_carbonate_alkalinity, mul_zero, zero_div, sub_zero]
    rw [if_neg (by norm_num), sub_zero, max_eq_right hta]
  · intro ta ph b cya₁ cya₂ h
    simp only [calculate_carbonate_alkalinity]
    refine max_le_max (le_refl _) ?_
    have hc : (0.38772 * cya₁) / (1 + (10 : ℝ) ^ ((6.83 : ℝ) - ph)) ≤
        (0.38772 * cya₂) / (1 + (10 : ℝ) ^ ((6.83 : ℝ) - ph)) :=
      (div_le_div_right (hden ph)).mpr (by nlinarith)
    linarith
  · intro ta ph b cya₁ cya₂ h hpos
    simp only [calculate_carbonate_alkalinity] at hpos ⊢
    set bor := if b > 0 then (4.63 * b) / (1 + (10 : ℝ) ^ ((9.11 : ℝ) - ph)) else 0
      with hbor
    have hraw₁ : 0 < ta - (0.38772 * cya₁) / (1 + (10 : ℝ) ^ ((6.83 : ℝ) - ph)) - bor := by
      by_contra hcon
      push_neg at hcon
      rw [max_eq_left hcon] at hpos
      norm_num at hpos
    have hc : (0.38772 * cya₁) / (1 + (10 : ℝ) ^ ((6.83 : ℝ) - ph)) <
        (0.38772 * cya₂) / (1 + (10 : ℝ) ^ ((6.83 : ℝ) - ph)) :=
      (div_lt_div_right (hden ph)).mpr (by nlinarith)
    rw [max_eq_right (le_of_lt hraw₁)]
    exact max_lt hraw₁ (by linarith)
  · intro ta ph cya b₁ b₂ hb₁ hb
    simp only [calculate_carbonate_alkalinity]
    refine max_le_max (le_refl _) ?_
    have hb₂ : b₂ > 0 := by linarith
    rw [if_pos hb₂]
    by_cases h1 : b₁ > 0
    · rw [if_pos h1]
      have : (4.63 * b₁) / (1 + (10 : ℝ) ^ ((9.11 : ℝ) - ph)) ≤
          (4.63 * b₂) / (1 + (10 : ℝ) ^ ((9.11 : ℝ) - ph)) :=
        (div_le_div_right (hden9 ph)).mpr (by nlinarith)
      linarith
    · rw [if_neg h1]
      have : 0 ≤ (4.63 * b₂) / (1 + (10 : ℝ) ^ ((9.11 : ℝ) - ph)) := by
        apply div_nonneg (by nlinarith) (le_of_lt (hden9 ph))
      linarith
  · intro ta ph cya b₁ b₂ hb₁ hb hpos
    simp only [calculate_carbonate_alkalinity] at hpos ⊢
    have hb₂ : b₂ > 0 := by linarith
    set cyc := (0.38772 * cya) / (1 + (10 : ℝ) ^ ((6.83 : ℝ) - ph)) with hcyc
    have hterm : (if b₁ > 0 then (4.63 * b₁) / (1 + (10 : ℝ) ^ ((9.11 : ℝ) - ph)) else 0) <
        (if b₂ > 0 then (4.63 * b₂) / (1 + (10 : ℝ) ^ ((9.11 : ℝ) - ph)) else 0) := by
      rw [if_pos hb₂]
      by_cases h1 : b₁ > 0
      · rw [if_pos h1]
        exact (div_lt_div_right (hden9 ph)).mpr (by nlinarith)
      · rw [if_neg h1]
        exact div_pos (by nlinarith) (hden9 ph)
    have hraw₁ : 0 < ta - cyc -
        (if b₁ > 0 then (4.63 * b₁) / (1 + (10 : ℝ) ^ ((9.11 : ℝ) - ph)) else 0) := by
      by_contra hcon
      push_neg at hcon
      rw [max_eq_left hcon] at hpos
      norm_num at hpos
    rw [max_eq_right (le_of_lt hraw₁)]
    exact max_lt hraw₁ (by linarith)
  · intro ta cya ph b
    simp only [calculate_carbonate_alkalinity]
    exact le_max_left _ _

/-- C4 witness: with zero CYA and borates the carbonate alkalinity is TA
itself at TA 80, and raising CYA from 10 to 20 at pH 6.83 strictly lowers
the (positive) result. -/
theorem carbonate_alkalinity_props_witness :
    calculate_carbonate_alkalinity 80 0 7.5 0 = 80 ∧
    calculate_carbonate_alkalinity 80 20 6.83 0 <
      calculate_carbonate_alkalinity 80 10 6.83 0 :=
  ⟨carbonate_alkalinity_props.1 80 7.5 (by norm_num),
   carbonate_alkalinity_props.2.2.1 80 6.83 0 10 20 (by norm_num)
     (by
       simp only [calculate_carbonate_alkalinity, sub_self, Real.rpow_zero]
       norm_num [max_def])⟩

lemma round_to_intCast (n : ℕ) (k : ℤ) : round_to n ((k : ℝ)) = k := by
  unfold round_to
  rw [show ((k : ℝ) * 10 ^ n) = ((k * 10 ^ n : ℤ) : ℝ) from by push_cast; ring,
    round_intCast]
  push_cast
  rw [mul_div_assoc, div_self (by positivity), mul_one]

/-- C9: for every input state, chemical, amount and positive pool volume,
predict_effect returns a state whose concentration fields are all
nonnegative, whose pH lies in [0, 14], and whose temperature and TDS are
exactly those of the input state. -/
theorem predict_effect_frame (water : WaterChemistry) (ct : ChemicalType)
    (amount g : ℝ) (hg : 0 < g) :
    ∃ w', predict_effect water ct amount g = Except.ok w' ∧
      0 ≤ w'.free_chlorine ∧ 0 ≤ w'.combined_chlorine ∧ 0 ≤ w'.total_alkalinity ∧
      0 ≤ w'.calcium_hardness ∧ 0 ≤ w'.cyanuric_acid ∧ 0 ≤ w'.salt ∧
      0 ≤ w'.borates ∧ 0 ≤ w'.ph ∧ w'.ph ≤ 14 ∧
      w'.temperature_f = water.temperature_f ∧ w'.tds = water.tds := by
  obtain ⟨chem, hc, -⟩ := chemicals_lookup_total ct
  have hgc : get_chemical ct = Except.ok chem := by rw [get_chemical, hc]
  rw [predict_effect, hgc]
  have hph14 : ∀ p : ℝ, round_to 2 (max 0 (min 14 p)) ≤ 14 := by
    intro p
    have h1 : max 0 (min 14 p) ≤ ((14 : ℤ) : ℝ) := by
      push_cast
      exact max_le (by norm_num) (min_le_left _ _)
    calc round_to 2 (max 0 (min 14 p)) ≤ round_to 2 ((14 : ℤ) : ℝ) := round_to_mono 2 h1
    _ = ((14 : ℤ) : ℝ) := round_to_intCast 2 14
    _ = 14 := by push_cast; rfl
  exact ⟨_, rfl,
    round_to_nonneg 1 (le_max_left _ _), round_to_nonneg 1 (le_max_left _ _),
    round_to_nonneg 0 (le_max_left _ _), round_to_nonneg 0 (le_max_left _ _),
    round_to_nonneg 0 (le_max_left _ _), round_to_nonneg 0 (le_max_left _ _),
    round_to_nonneg 0 (le_max_left _ _), round_to_nonneg 2 (le_max_left _ _),
    hph14 _, rfl, rfl⟩

/-- A sample water snapshot for witnessing predict_effect. -/
noncomputable def sampleWater : WaterChemistry :=
  { ph := 7.5, temperature_f := 84, free_chlorine := 2.0,
    total_alkalinity := 80, calcium_hardness := 300, cyanuric_acid := 50 }

/-- C9 witness: predicting 8 oz of trichlor in 15000 gallons on the sample
state. -/
theorem predict_effect_frame_witness :
    ∃ w', predict_effect sampleWater ChemicalType.TRICHLOR 8 15000 = Except.ok w' ∧
      0 ≤ w'.free_chlorine ∧ 0 ≤ w'.combined_chlorine ∧ 0 ≤ w'.total_alkalinity ∧
      0 ≤ w'.calcium_hardness ∧ 0 ≤ w'.cyanuric_acid ∧ 0 ≤ w'.salt ∧
      0 ≤ w'.borates ∧ 0 ≤ w'.ph ∧ w'.ph ≤ 14 ∧
      w'.temperature_f = sampleWater.temperature_f ∧ w'.tds = sampleWater.tds :=
  predict_effect_frame sampleWater ChemicalType.TRICHLOR 8 15000 (by norm_num)

/-- The Bleach 12.5% registry entry, spelled out for concrete dosing
evaluations. -/
noncomputable def bleach125 : Chemical :=
  { chemical_type := ChemicalType.BLEACH_12_5, name := "Bleach 12.5%",
    multiplier := 1250.0, unit := "fl_oz", affects := "free_chlorine" }

/-- C7 counterexample: the returned chlorine dose for a doubled pool volume
is not exactly twice the returned dose, because both are rounded to two
decimals: at current 2, target 3 the dose is 0.01 for 17.5 gallons and
0.03 for 35 gallons. -/
theorem dose_volume_doubling_counterexample :
    Except.map DosingResult.amount
        (calculate_chlorine_dose 2 3 35 ChemicalType.BLEACH_12_5) ≠
      Except.map (fun r => 2 * r.amount)
        (calculate_chlorine_dose 2 3 17.5 ChemicalType.BLEACH_12_5) := by
  have hc : get_chemical ChemicalType.BLEACH_12_5 = Except.ok bleach125 := rfl
  have e1 : calculate_chlorine_dose 2 3 17.5 ChemicalType.BLEACH_12_5 = Except.ok
      { chemical := bleach125,
        amount := round_to 2 ((3 - 2) * 17.5 / 1250), unit := "fl_oz" } := by
    rw [calculate_chlorine_dose, hc]
    norm_num [doseAmountVolume, doseVolumeUnitCups, Except.bind, bleach125]
  have e2 : calculate_chlorine_dose 2 3 35 ChemicalType.BLEACH_12_5 = Except.ok
      { chemical := bleach125,
        amount := round_to 2 ((3 - 2) * 35 / 1250), unit := "fl_oz" } := by
    rw [calculate_chlorine_dose, hc]
    norm_num [doseAmountVolume, doseVolumeUnitCups, Except.bind, bleach125]
  have r1 : round_to 2 ((3 - 2) * (17.5 : ℝ) / 1250) = 0.01 := by
    have h : (⌊((3 - 2) * (17.5 : ℝ) / 1250) * 10 ^ 2 + 1 / 2⌋ : ℤ) = 1 := by
      rw [Int.floor_eq_iff]
      norm_num
    rw [round_to, round_eq, h]
    norm_num
  have r2 : round_to 2 ((3 - 2) * (35 : ℝ) / 1250) = 0.03 := by
    have h : (⌊((3 - 2) * (35 : ℝ) / 1250) * 10 ^ 2 + 1 / 2⌋ : ℤ) = 3 := by
      rw [Int.floor_eq_iff]
      norm_num
    rw [round_to, round_eq, h]
    norm_num
  rw [e1, e2]
  simp only [Except.map, r1, r2, Except.ok.injEq]
  norm_num

/-- C7 amended: for every non-pH dosing function, when current < target the
dose returned for a doubled pool volume is the rounding (two decimals, one
for salt) of exactly twice the unrounded dose for the original volume; the
doubling is exact before rounding. -/
theorem dose_volume_doubling (cur targ v : ℝ) (h : cur < targ) :
    (∀ ct chem, CHEMICALS.lookup ct = some chem →
      ∃ r, calculate_chlorine_dose cur targ (2 * v) ct = Except.ok r ∧
        r.amount = round_to 2 (2 * ((targ - cur) * v / chem.multiplier))) ∧
    (∀ ct chem, CHEMICALS.lookup ct = some chem →
      ∃ r, calculate_alkalinity_dose cur targ (2 * v) ct = Except.ok r ∧
        r.amount = round_to 2 (2 * ((targ - cur) * v / chem.multiplier))) ∧
    (∀ ct chem, CHEMICALS.lookup ct = some chem →
      ∃ r, calculate_calcium_dose cur targ (2 * v) ct = Except.ok r ∧
        r.amount = round_to 2 (2 * ((targ - cur) * v / chem.multiplier))) ∧
    (∀ ct chem, CHEMICALS.lookup ct = some chem →
      ∃ r, calculate_cya_dose cur targ (2 * v) ct = Except.ok r ∧
        r.amount = round_to 2 (2 * ((targ - cur) * v / chem.multiplier))) ∧
    (∀ ct chem, CHEMICALS.lookup ct = some chem →
      ∃ r, calculate_borate_dose cur targ (2 * v) ct = Except.ok r ∧
        r.amount = round_to 2 (2 * ((targ - cur) * v / chem.multiplier))) ∧
    (∀ chem, CHEMICALS.lookup ChemicalType.POOL_SALT = some chem →
      ∃ r, calculate_salt_dose cur targ (2 * v) = Except.ok r ∧
        r.amount = round_to 1 (2 * ((targ - cur) * v / chem.multiplier / 16))) := by
  have hne : ¬(targ - cur ≤ 0) := by linarith
  refine ⟨?_, ?_, ?_, ?_, ?_, ?_⟩
  · intro ct chem hc
    have hg : get_chemical ct = Except.ok chem := by rw [get_chemical, hc]
    rw [calculate_chlorine_dose, hg]
    simp only [Except.bind, if_neg hne]
    refine ⟨_, rfl, ?_⟩
    ring_nf
  · intro ct chem hc
    have hg : get_chemical ct = Except.ok chem := by rw [get_chemical, hc]
    rw [calculate_alkalinity_dose, hg]
    simp only [Except.bind, if_neg hne]
    refine ⟨_, rfl, ?_⟩
    ring_nf
  · intro ct chem hc
    have hg : get_chemical ct = Except.ok chem := by rw [get_chemical, hc]
    rw [calculate_calcium_dose, hg]
    simp only [Except.bind, if_neg hne]
    refine ⟨_, rfl, ?_⟩
    ring_nf
  · intro ct chem hc
    have hg : get_chemical ct = Except.ok chem := by rw [get_chemical, hc]
    rw [calculate_cya_dose, hg]
    simp only [Except.bind, if_neg hne]
    refine ⟨_, rfl, ?_⟩
    ring_nf
  · intro ct chem hc
    have hg : get_chemical ct = Except.ok chem := by rw [get_chemical, hc]
    rw [calculate_borate_dose, hg]
    simp only [Except.bind, if_neg hne]
    refine ⟨_, rfl, ?_⟩
    ring_nf
  · intro chem hc
    have hg : get_chemical ChemicalType.POOL_SALT = Except.ok chem := by
      rw [get_chemical, hc]
    rw [calculate_salt_dose, hg]
    simp only [Except.bind, if_neg hne]
    refine ⟨_, rfl, ?_⟩
    ring_nf

/-- C7 witness: the doubled-volume chlorine dose at current 2, target 3,
base volume 17.5 gallons with Bleach 12.5%. -/
theorem dose_volume_doubling_witness :
    ∃ r, calculate_chlorine_dose 2 3 (2 * 17.5) ChemicalType.BLEACH_12_5 = Except.ok r ∧
      r.amount = round_to 2 (2 * ((3 - 2) * 17.5 / bleach125.multiplier)) :=
  (dose_volume_doubling 2 3 17.5 (by norm_num)).1 ChemicalType.BLEACH_12_5 bleach125 rfl

/-- The Muriatic Acid 31.45% registry entry (the default pH-lowering
chemical), spelled out for concrete dosing evaluations. -/
noncomputable def muriatic3145 : Chemical :=
  { chemical_type := ChemicalType.MURIATIC_ACID_31_45,
    name := "Muriatic Acid 31.45% (20 Baume)",
    multiplier := 240.15, unit := "fl_oz", affects := "ph",
    secondary_effects := [("total_alkalinity", -3911.47)] }

/-- Evaluation of calculate_ph_dose on an acid dose (target at least 0.01
below current) with the default chemical: the returned amount is the
two-decimal rounding of ph_dose_raw with the muriatic-acid multiplier. -/
lemma calculate_ph_dose_acid_eval (cur targ v ta temp borates : ℝ)
    (hd : targ - cur ≤ -0.01) :
    calculate_ph_dose cur targ v ta temp borates none none = Except.ok
      { chemical := muriatic3145,
        amount := round_to 2 (ph_dose_raw (targ - cur) v ta temp borates false 240.15),
        unit := "fl_oz" } := by
  have hr : (none : Option Bool).getD (decide (targ - cur > 0)) = false := by
    simp only [Option.getD_none]
    exact decide_eq_false (by linarith)
  have hc : CHEMICALS.lookup ChemicalType.MURIATIC_ACID_31_45 = some muriatic3145 := rfl
  have habs : ¬(|targ - cur| < 0.01) := by
    rw [abs_of_nonpos (by linarith)]
    linarith
  rw [calculate_ph_dose, hr]
  simp only [habs, if_false]
  norm_num [Except.bind, Except.map, pure, Except.pure, doseAmountVolume,
    doseVolumeUnitCups, muriatic3145, get_chemical, hc]
  rfl

/-- C8 counterexample: with the default 80 °F, zero borates and default
muriatic acid, raising total alkalinity from 100 to 101 leaves the
returned (two-decimal rounded) acid amount for a 7.8 → 7.5 dose unchanged
at 0.17, so the returned amount does not strictly increase. -/
theorem ph_dose_ta_strict_increase_counterexample :
    (100 : ℝ) < 101 ∧
    Except.map DosingResult.amount (calculate_ph_dose 7.8 7.5 10000 101 80 0 none none) =
      Except.map DosingResult.amount (calculate_ph_dose 7.8 7.5 10000 100 80 0 none none) := by
  refine ⟨by norm_num, ?_⟩
  have hraw : ∀ ta : ℝ, 0 ≤ ta → ph_dose_raw (7.5 - 7.8) 10000 ta 80 0 false 240.15 =
      0.3 * ((192.1626 - 60.1221 + 6.0752 - 0.1943) * (ta + 13.91) / 114.6) / 240.15 := by
    intro ta hta0
    rw [ph_dose_raw, calculate_ph_adjustment_factor, calculate_borate_correction]
    rw [if_pos (by norm_num : (0 : ℝ) ≤ 0)]
    simp only [Bool.false_eq_true, if_false]
    have hA : (192.1626 - 60.1221 * (((80 : ℝ) - 60) / 20)
        + 6.0752 * (((80 : ℝ) - 60) / 20) ^ 2
        - 0.1943 * (((80 : ℝ) - 60) / 20) ^ 3) = (137.9214 : ℝ) := by norm_num
    rw [hA]
    rw [show ((7.5 : ℝ) - 7.8) * (137.9214 * (ta + 13.91) / 114.6) / (-240.15)
        + 0 / (-240.15) = 0.3 * (137.9214 * (ta + 13.91) / 114.6) / 240.15 from by ring]
    rw [abs_of_nonneg (div_nonneg (mul_nonneg (by norm_num)
      (div_nonneg (mul_nonneg (by norm_num) (by linarith)) (by norm_num))) (by norm_num))]
    norm_num
  have h100 : round_to 2 (0.3 * ((192.1626 - 60.1221 + 6.0752 - 0.1943)
      * ((100 : ℝ) + 13.91) / 114.6) / 240.15) = 0.17 := by
    have h : (⌊(0.3 * ((192.1626 - 60.1221 + 6.0752 - 0.1943)
        * ((100 : ℝ) + 13.91) / 114.6) / 240.15) * 10 ^ 2 + 1 / 2⌋ : ℤ) = 17 := by
      rw [Int.floor_eq_iff]
      norm_num
    rw [round_to, round_eq, h]
    norm_num
  have h101 : round_to 2 (0.3 * ((192.1626 - 60.1221 + 6.0752 - 0.1943)
      * ((101 : ℝ) + 13.91) / 114.6) / 240.15) = 0.17 := by
    have h : (⌊(0.3 * ((192.1626 - 60.1221 + 6.0752 - 0.1943)
        * ((101 : ℝ) + 13.91) / 114.6) / 240.15) * 10 ^ 2 + 1 / 2⌋ : ℤ) = 17 := by
      rw [Int.floor_eq_iff]
      norm_num
    rw [round_to, round_eq, h]
    norm_num
  rw [calculate_ph_dose_acid_eval 7.8 7.5 10000 101 80 0 (by norm_num),
    calculate_ph_dose_acid_eval 7.8 7.5 10000 100 80 0 (by norm_num)]
  simp only [Except.map]
  rw [hraw 101 (by norm_num), hraw 100 (by norm_num), h100, h101]

/-- C8 amended: for an acid dose (target pH at least 0.01 below current) at
the default 80 °F, zero borates and the default muriatic acid chemical,
strictly increasing total alkalinity (from a nonnegative level) strictly
increases the acid amount before rounding, and the returned two-decimal
rounded amount never decreases. -/
theorem ph_dose_ta_monotonic (cur targ v ta₁ ta₂ : ℝ)
    (hd : targ - cur ≤ -0.01) (hv : 0 < v) (h0 : 0 ≤ ta₁) (hta : ta₁ < ta₂) :
    ph_dose_raw (targ - cur) v ta₁ 80 0 false 240.15 <
      ph_dose_raw (targ - cur) v ta₂ 80 0 false 240.15 ∧
    ∃ r₁ r₂, calculate_ph_dose cur targ v ta₁ 80 0 none none = Except.ok r₁ ∧
      calculate_ph_dose cur targ v ta₂ 80 0 none none = Except.ok r₂ ∧
      r₁.amount = round_to 2 (ph_dose_raw (targ - cur) v ta₁ 80 0 false 240.15) ∧
      r₂.amount = round_to 2 (ph_dose_raw (targ - cur) v ta₂ 80 0 false 240.15) ∧
      r₁.amount ≤ r₂.amount := by
  have hmono : ph_dose_raw (targ - cur) v ta₁ 80 0 false 240.15 <
      ph_dose_raw (targ - cur) v ta₂ 80 0 false 240.15 := by
    rw [ph_dose_raw, ph_dose_raw, calculate_ph_adjustment_factor,
      calculate_ph_adjustment_factor, calculate_borate_correction]
    rw [if_pos (by norm_num : (0 : ℝ) ≤ 0)]
    simp only [Bool.false_eq_true, if_false]
    have hA : (192.1626 - 60.1221 * (((80 : ℝ) - 60) / 20)
        + 6.0752 * (((80 : ℝ) - 60) / 20) ^ 2
        - 0.1943 * (((80 : ℝ) - 60) / 20) ^ 3) = (137.9214 : ℝ) := by norm_num
    rw [hA]
    have hpos : 0 < cur - targ := by linarith
    have he : ∀ ta : ℝ, 0 ≤ ta →
        |(targ - cur) * (137.9214 * (ta + 13.91) / 114.6) / (-240.15)
          + 0 / (-240.15)| * v / 10000
        = (cur - targ) * (ta + 13.91) * (137.9214 / (114.6 * 240.15)) * v / 10000 := by
      intro ta hta0
      rw [show (targ - cur) * (137.9214 * (ta + 13.91) / 114.6) / (-240.15) + 0 / (-240.15)
        = (cur - targ) * (ta + 13.91) * (137.9214 / (114.6 * 240.15)) from by ring]
      rw [abs_of_nonneg (mul_nonneg (mul_nonneg (by linarith) (by linarith)) (by norm_num))]
    rw [he ta₁ h0, he ta₂ (by linarith)]
    gcongr
  refine ⟨hmono, _, _, calculate_ph_dose_acid_eval cur targ v ta₁ 80 0 hd,
    calculate_ph_dose_acid_eval cur targ v ta₂ 80 0 hd, rfl, rfl, ?_⟩
  exact round_to_mono 2 (le_of_lt hmono)

/-- C8 witness: the acid dose for 7.8 → 7.5 at 10000 gallons, comparing
total alkalinity 100 against 101. -/
theorem ph_dose_ta_monotonic_witness :
    ph_dose_raw (7.5 - 7.8) 10000 100 80 0 false 240.15 <
      ph_dose_raw (7.5 - 7.8) 10000 101 80 0 false 240.15 ∧
    ∃ r₁ r₂, calculate_ph_dose 7.8 7.5 10000 100 80 0 none none = Except.ok r₁ ∧
      calculate_ph_dose 7.8 7.5 10000 101 80 0 none none = Except.ok r₂ ∧
      r₁.amount = round_to 2 (ph_dose_raw (7.5 - 7.8) 10000 100 80 0 false 240.15) ∧
      r₂.amount = round_to 2 (ph_dose_raw (7.5 - 7.8) 10000 101 80 0 false 240.15) ∧
      r₁.amount ≤ r₂.amount :=
  ph_dose_ta_monotonic 7.8 7.5 10000 100 101 (by norm_num) (by norm_num)
    (by norm_num) (by norm_num)

/-- C10: the chemical registry covers the whole ChemicalType enumeration:
get_chemical succeeds on every member with a descriptor whose
chemical_type field is the requested member, so the not-found error branch
cannot fire for enumeration members. -/
theorem get_chemical_covers_enumeration :
    ∀ ct : ChemicalType, ∃ c, get_chemical ct = Except.ok c ∧ c.chemical_type = ct := by
  intro ct
  obtain ⟨c, hc, hct⟩ := chemicals_lookup_total ct
  exact ⟨c, by simp only [get_chemical, hc], hct⟩
